import Mathlib

/-!
Shallow embedding of the experiment-orchestration script main.py of the
GeneralAdversarialNetwork repository: vocabulary loading with possible
aliasing, dataloader construction with the sampling-strategy selection,
model construction with pretrained-embedding injection and device
placement, checkpoint reload with version checking, the optimizer
dispatch and the top-level mode dispatch.

External collaborators (the HAN model internals, ReviewsDataset, torch,
the file system, pickle) are abstracted: the file system is a function
from paths to optional checkpoints, the vocabulary artifacts on disk are
a function from paths to sizes and vector blocks, and loaded objects
carry an allocation identifier so that reference aliasing is observable.
-/

/-- A data split phase: the keys of the phase dictionaries in main.py. -/
inductive Phase
  | train
  | val
  | test
deriving DecidableEq, Repr

/-- The value of the optional data.weights configuration entry: in the
YAML it is either a string or a list of numbers. -/
inductive WeightsVal
  | wstr (s : String)
  | wlist (l : List Int)
deriving DecidableEq, Repr

/-- Python truthiness of a weights value: an empty string or an empty
list is falsy (main.py line 45 tests not config weights). -/
def WeightsVal.truthy : WeightsVal → Bool
  | WeightsVal.wstr s => !(s = "")
  | WeightsVal.wlist l => !l.isEmpty

/-- Per-phase data configuration (config data train / val / test). -/
structure PhaseCfg where
  jsonfile : String
  batch_size : Nat
deriving DecidableEq, Repr

/-- The data section of the configuration. -/
structure DataConfig where
  dir : String
  review_vocab : String
  summary_vocab : String
  weights : Option WeightsVal
  train : PhaseCfg
  val : PhaseCfg
  test : PhaseCfg
deriving DecidableEq, Repr

/-- Select the phase subsection of the data section. -/
def DataConfig.phase (dc : DataConfig) : Phase → PhaseCfg
  | Phase.train => dc.train
  | Phase.val => dc.val
  | Phase.test => dc.test

/-- The model params dictionary: keys that build_model reads or writes.
Optional fields model keys that may be absent from the dictionary. -/
structure ModelParams where
  use_summary : Bool
  combined_lookup : Option Bool
  review_vocab_size : Option Nat
  summary_vocab_size : Option Nat
  use_gpu : Option Bool
deriving DecidableEq, Repr

/-- The model section of the configuration: the params dictionary and
the optional reload key (a checkpoint file name under save_dir). -/
structure ModelConfig where
  params : ModelParams
  reload : Option String
deriving DecidableEq, Repr

/-- The optim section: the class tag (key class in the YAML; cls here
because class is a reserved word). Optimizer params are opaque. -/
structure OptimConfig where
  cls : String
deriving DecidableEq, Repr

/-- The training section. -/
structure TrainingConfig where
  n_epochs : Nat
deriving DecidableEq, Repr

/-- The whole configuration mapping read from the YAML file. -/
structure FullConfig where
  mode : String
  use_gpu : Bool
  seed : Int
  save_dir : String
  data : DataConfig
  model : ModelConfig
  optim : OptimConfig
  training : TrainingConfig
deriving DecidableEq, Repr

/-- os.path.join for the two-argument uses in main.py. -/
def pathJoin (d f : String) : String :=
  if d = "" then f else d ++ "/" ++ f

/-- The contents of an embedding lookup table: either the fresh random
initialization made by the HAN constructor, or the result of copying a
vocabulary vector block into it. -/
inductive TableVal
  | init
  | copied (vectors : String)
deriving DecidableEq, Repr

/-- The HAN classifier seen as a black box: the constructor parameters
it received, its two lookup tables, whether its parameters were moved
to the accelerator, its version tag, and the state dict loaded into it
by load_state_dict (none when only the constructor initialized it). -/
structure HANModel where
  params : ModelParams
  review_lookup : TableVal
  summary_lookup : TableVal
  on_gpu : Bool
  version : String
  state : Option String
deriving DecidableEq, Repr

/-- The HAN constructor (model.py, external): fresh lookup tables, CPU
placement, the version tag of the model class, no loaded state. -/
def HAN (params : ModelParams) (version : String) : HANModel :=
  ⟨params, TableVal.init, TableVal.init, false, version, none⟩

/-- A vocabulary object as produced by pickle.load: an allocation
identifier making reference identity observable, the length reported by
len, and the pretrained vector block. -/
structure Vocab where
  oid : Nat
  size : Nat
  vectors : String
deriving DecidableEq, Repr

/-- The vocabulary artifacts on disk: for each path, the length and the
vector block of the pickled vocabulary stored there. -/
structure Disk where
  vocabSize : String → Nat
  vocabVectors : String → String

/-- pickle.load of a vocabulary artifact: the oid argument is the fresh
allocation identifier of the returned object. -/
def pickle_load (disk : Disk) (path : String) (oid : Nat) : Vocab :=
  ⟨oid, disk.vocabSize path, disk.vocabVectors path⟩

/-- The sampler handed to a DataLoader: ReviewsDataset.get_sampler is
external, so only the way it was invoked is recorded; none models the
Python None sampler. -/
inductive SamplerVal
  | auto
  | fromWeights (w : WeightsVal)
deriving DecidableEq, Repr

/-- The arguments a DataLoader was constructed with for one phase. -/
structure DataLoaderCfg where
  batch_size : Nat
  shuffle : Bool
  sampler : Option SamplerVal
deriving DecidableEq, Repr

/-- The DataLoader built for phase x by load_datasets (main.py lines
45-52): without truthy weights, shuffle only for train and no sampler;
with truthy weights, shuffle off everywhere and a sampler for train
only, automatic for the string weighted and from the explicit weights
otherwise. -/
def dataloaderFor (dc : DataConfig) (x : Phase) : DataLoaderCfg :=
  match dc.weights with
  | none => ⟨(dc.phase x).batch_size, if x = Phase.train then true else false, none⟩
  | some w =>
      if !w.truthy then
        ⟨(dc.phase x).batch_size, if x = Phase.train then true else false, none⟩
      else
        let sampler :=
          if w = WeightsVal.wstr "weighted" then
            if x = Phase.train then some SamplerVal.auto else none
          else
            if x = Phase.train then some (SamplerVal.fromWeights w) else none
        ⟨(dc.phase x).batch_size, false, sampler⟩

/-- The result of load_datasets: the per-phase dataloaders, the two
vocabulary objects, and how many pickle.load calls were made. -/
structure LoadOut where
  loaders : List (Phase × DataLoaderCfg)
  review_vocab : Vocab
  summary_vocab : Vocab
  load_count : Nat
deriving Repr

/-- load_datasets (main.py lines 24-58): load the review vocabulary;
load the summary vocabulary only when its configured file name differs,
aliasing the review vocabulary object otherwise; build one DataLoader
per requested phase. -/
def load_datasets (dc : DataConfig) (disk : Disk) (phases : List Phase) : LoadOut :=
  let review_vocab := pickle_load disk (pathJoin dc.dir dc.review_vocab) 0
  if dc.review_vocab ≠ dc.summary_vocab then
    let summary_vocab := pickle_load disk (pathJoin dc.dir dc.summary_vocab) 1
    ⟨phases.map (fun x => (x, dataloaderFor dc x)), review_vocab, summary_vocab, 2⟩
  else
    ⟨phases.map (fun x => (x, dataloaderFor dc x)), review_vocab, review_vocab, 1⟩

/-- The observable steps of build_model that the spec orders: the two
embedding copies and the transfer of the model to the accelerator. -/
inductive BuildEvent
  | copyReview
  | copySummary
  | toCuda
deriving DecidableEq, Repr

/-- The result of build_model: the model, the configuration (mutated in
place by the Python code, so returned here), and the event trace. -/
structure BuildOut where
  model : HANModel
  config : FullConfig
  trace : List BuildEvent
deriving Repr

/-- build_model (main.py lines 61-78): write the two vocabulary sizes
and the gpu flag into the params dictionary, construct the HAN, copy
the review vectors into the review lookup, default combined_lookup to
false when absent, copy the summary vectors into the summary lookup
when use_summary holds and combined_lookup does not, and move the model
to the accelerator last when use_gpu holds. -/
def build_model (config : FullConfig) (review_vocab summary_vocab : Vocab)
    (version : String) : BuildOut :=
  let use_gpu := config.use_gpu
  let params1 := { config.model.params with
    review_vocab_size := some review_vocab.size,
    summary_vocab_size := some summary_vocab.size,
    use_gpu := some use_gpu }
  let model1 := { HAN params1 version with
    review_lookup := TableVal.copied review_vocab.vectors }
  let params2 :=
    if params1.combined_lookup = none then
      { params1 with combined_lookup := some false }
    else params1
  let summary_copy := params2.use_summary && !(params2.combined_lookup.getD false)
  let model2 :=
    if summary_copy then
      { model1 with summary_lookup := TableVal.copied summary_vocab.vectors }
    else model1
  let model3 := if use_gpu then { model2 with on_gpu := true } else model2
  let trace := [BuildEvent.copyReview]
    ++ (if summary_copy then [BuildEvent.copySummary] else [])
    ++ (if use_gpu then [BuildEvent.toCuda] else [])
  ⟨model3, { config with model := { config.model with params := params2 } }, trace⟩

/-- The checkpoint object stored by torch.save and read back by
torch.load in reload (main.py lines 90-98); the two state dicts are
opaque tags. -/
structure Checkpoint where
  epoch : Nat
  fscore : Rat
  model_version : String
  state_dict : String
  optimizer : String
deriving DecidableEq, Repr

/-- The tag of torch.optim classes that main.py dispatches on. -/
inductive OptimClass
  | sgd
  | rmsprop
  | adam
deriving DecidableEq, Repr

/-- An optimizer instance: its class and the state dict loaded into it
by load_state_dict, if any. -/
structure Optimizer where
  cls : OptimClass
  state : Option String
deriving DecidableEq, Repr

/-- The result of reload. -/
structure ReloadOut where
  model : HANModel
  optimizer : Option Optimizer
  best_fscore : Rat
  start_epoch : Nat
  logs : List String
deriving DecidableEq, Repr

/-- The warning line reload logs on a model version mismatch (main.py
lines 92-93). -/
def versionMismatchMsg (cur ck : String) : String :=
  "Model version mismatch: current version=" ++ cur ++ ", checkpoint version=" ++ ck

/-- reload (main.py lines 81-101): when the model section has a reload
key and the joined path exists, load the checkpoint, warn on a version
mismatch, take start_epoch and best_fscore from it, load the model
state dict and, when an optimizer was passed, the optimizer state dict;
otherwise return everything unchanged with fscore 0 and epoch 0. The
file system fs maps a path to the checkpoint it holds, if it exists. -/
def reload (config : FullConfig) (fs : String → Option Checkpoint)
    (model : HANModel) (optimizer : Option Optimizer) : ReloadOut :=
  let save_dir := config.save_dir
  match config.model.reload with
  | none => ⟨model, optimizer, 0, 0, []⟩
  | some r =>
      let reload_path := pathJoin save_dir r
      match fs reload_path with
      | none =>
          ⟨model, optimizer, 0, 0,
            ["no checkpoint/model found at " ++ reload_path]⟩
      | some checkpoint =>
          let logs0 := ["=> loading checkpoint/model found at " ++ reload_path]
          let logs1 :=
            if model.version ≠ checkpoint.model_version then
              logs0 ++ [versionMismatchMsg model.version checkpoint.model_version]
            else logs0
          ⟨{ model with state := some checkpoint.state_dict },
            optimizer.map (fun o => { o with state := some checkpoint.optimizer }),
            checkpoint.fscore, checkpoint.epoch, logs1⟩

/-- The optimizer class dispatch of main.py lines 118-126: sgd and
rmsprop are recognized, every other tag falls through to Adam. -/
def select_optimizer (tag : String) : OptimClass :=
  if tag = "sgd" then OptimClass.sgd
  else if tag = "rmsprop" then OptimClass.rmsprop
  else OptimClass.adam

/-- The top-level actions of main that the spec talks about. -/
inductive MainEvent
  | loadData (phases : List Phase)
  | modelBuilt
  | trainRun
  | testRun
  | invalidMode (mode : String)
deriving DecidableEq, Repr

/-- The observable outcome of main. -/
structure MainOut where
  events : List MainEvent
  model : HANModel
  buildTrace : List BuildEvent
  optimizer : Option Optimizer
deriving Repr

/-- mainRun embeds main (main.py lines 104-146): choose phases from the mode, load the
datasets, build the model, then dispatch on the mode: train constructs
an optimizer and reloads before training, test reloads without an
optimizer before testing, and any other mode only logs an invalid-mode
message, after the datasets were loaded and the model was built. -/
def mainRun (config : FullConfig) (disk : Disk) (fs : String → Option Checkpoint)
    (version : String) : MainOut :=
  let phases := if config.mode = "test" then [Phase.test] else [Phase.train, Phase.val]
  let ld := load_datasets config.data disk phases
  let bm := build_model config ld.review_vocab ld.summary_vocab version
  let evs0 := [MainEvent.loadData phases, MainEvent.modelBuilt]
  if config.mode = "train" then
    let optimizer0 : Optimizer := ⟨select_optimizer config.optim.cls, none⟩
    let r := reload bm.config fs bm.model (some optimizer0)
    ⟨evs0 ++ [MainEvent.trainRun], r.model, bm.trace, r.optimizer⟩
  else if config.mode = "test" then
    let r := reload bm.config fs bm.model none
    ⟨evs0 ++ [MainEvent.testRun], r.model, bm.trace, none⟩
  else
    ⟨evs0 ++ [MainEvent.invalidMode config.mode], bm.model, bm.trace, none⟩

/-- main.py line 154, run before main: the configured use_gpu flag is
replaced by its conjunction with actual accelerator availability. -/
def startup_use_gpu (config : FullConfig) (cuda_available : Bool) : FullConfig :=
  { config with use_gpu := config.use_gpu && cuda_available }

/-! ## Concrete fixtures used to instantiate the theorems -/

/-- A sample phase section. -/
def samplePhaseCfg : PhaseCfg := ⟨"data.json", 32⟩

/-- A sample data section: distinct vocabulary files, no weights key. -/
def sampleDataConfig : DataConfig :=
  ⟨"d", "rv.pkl", "sv.pkl", none, samplePhaseCfg, samplePhaseCfg, samplePhaseCfg⟩

/-- Sample model params: summaries on, combined_lookup key absent. -/
def sampleParams : ModelParams := ⟨true, none, none, none, none⟩

/-- A sample training-mode configuration without a reload key. -/
def sampleConfig : FullConfig :=
  ⟨"train", false, 0, "save", sampleDataConfig, ⟨sampleParams, none⟩, ⟨"adam"⟩, ⟨10⟩⟩

/-- A sample disk: every vocabulary artifact has length 7 and block V. -/
def sampleDisk : Disk := ⟨fun _ => 7, fun _ => "V"⟩

/-- A freshly constructed sample model with version tag 1.0. -/
def sampleModel : HANModel := HAN sampleParams "1.0"

/-- A sample checkpoint written by an older model version. -/
def sampleCheckpoint : Checkpoint := ⟨4, 7, "0.9", "SD", "OD"⟩

/-- A sample file system holding only the checkpoint save/ck.pt. -/
def sampleFS : String → Option Checkpoint :=
  fun p => if p = "save/ck.pt" then some sampleCheckpoint else none

/-- sampleConfig with the reload key pointing at the checkpoint. -/
def sampleReloadConfig : FullConfig :=
  { sampleConfig with model := ⟨sampleParams, some "ck.pt"⟩ }

/-- Two sample vocabulary objects with distinct identities. -/
def sampleVocab : Vocab := ⟨0, 7, "RV"⟩

/-- A second sample vocabulary object. -/
def sampleVocab2 : Vocab := ⟨1, 5, "SV"⟩

/-! ## C1 -/

/-- C1: when the model section has no reload key, or the joined path
save_dir/reload does not exist, reload returns the model and the
optimizer unchanged with best_fscore 0 and start_epoch 0, as a normal
fresh start. -/
theorem reload_fresh_start (c : FullConfig) (fs : String → Option Checkpoint)
    (m : HANModel) (o : Option Optimizer)
    (h : c.model.reload = none ∨
      ∃ r, c.model.reload = some r ∧ fs (pathJoin c.save_dir r) = none) :
    (reload c fs m o).model = m ∧ (reload c fs m o).optimizer = o ∧
    (reload c fs m o).best_fscore = 0 ∧ (reload c fs m o).start_epoch = 0 := by
  rcases h with h | ⟨r, hr, hfs⟩
  · simp [reload, h]
  · simp [reload, hr, hfs]

/-- C1 witness: at the sample configuration without a reload key. -/
theorem reload_fresh_start_witness :
    (reload sampleConfig sampleFS sampleModel none).model = sampleModel ∧
    (reload sampleConfig sampleFS sampleModel none).optimizer = none ∧
    (reload sampleConfig sampleFS sampleModel none).best_fscore = 0 ∧
    (reload sampleConfig sampleFS sampleModel none).start_epoch = 0 :=
  reload_fresh_start sampleConfig sampleFS sampleModel none (Or.inl rfl)

/-! ## C2 -/

/-- C2: when the checkpoint exists at the configured reload path and its
model_version differs from the live model version, reload logs the
mismatch warning and still loads start_epoch, best_fscore and the model
state dict from the checkpoint, and the optimizer state when an
optimizer was supplied; it returns normally. -/
theorem reload_version_mismatch (c : FullConfig) (fs : String → Option Checkpoint)
    (m : HANModel) (o : Optimizer) (r : String) (ck : Checkpoint)
    (hr : c.model.reload = some r)
    (hfs : fs (pathJoin c.save_dir r) = some ck)
    (hv : m.version ≠ ck.model_version) :
    versionMismatchMsg m.version ck.model_version ∈ (reload c fs m (some o)).logs ∧
    (reload c fs m (some o)).start_epoch = ck.epoch ∧
    (reload c fs m (some o)).best_fscore = ck.fscore ∧
    (reload c fs m (some o)).model = { m with state := some ck.state_dict } ∧
    (reload c fs m (some o)).optimizer = some { o with state := some ck.optimizer } := by
  simp [reload, hr, hfs, hv]

/-- C2 witness: the sample model (version 1.0) against the sample
checkpoint (version 0.9) found at save/ck.pt. -/
theorem reload_version_mismatch_witness :
    versionMismatchMsg sampleModel.version sampleCheckpoint.model_version ∈
      (reload sampleReloadConfig sampleFS sampleModel (some ⟨OptimClass.adam, none⟩)).logs ∧
    (reload sampleReloadConfig sampleFS sampleModel (some ⟨OptimClass.adam, none⟩)).start_epoch
      = sampleCheckpoint.epoch ∧
    (reload sampleReloadConfig sampleFS sampleModel (some ⟨OptimClass.adam, none⟩)).best_fscore
      = sampleCheckpoint.fscore ∧
    (reload sampleReloadConfig sampleFS sampleModel (some ⟨OptimClass.adam, none⟩)).model
      = { sampleModel with state := some sampleCheckpoint.state_dict } ∧
    (reload sampleReloadConfig sampleFS sampleModel (some ⟨OptimClass.adam, none⟩)).optimizer
      = some { (⟨OptimClass.adam, none⟩ : Optimizer) with state := some sampleCheckpoint.optimizer } :=
  reload_version_mismatch sampleReloadConfig sampleFS sampleModel
    ⟨OptimClass.adam, none⟩ "ck.pt" sampleCheckpoint rfl (by decide) (by decide)

/-! ## C3 -/

/-- C3: build_model always copies the review vocabulary vectors into the
review lookup table; it copies the summary vocabulary vectors into the
separate summary lookup table exactly when use_summary is true and
combined_lookup is not set to true (an absent combined_lookup key is
treated as false, so with use_summary true and the key absent the copy
occurs). -/
theorem build_model_embedding_injection (c : FullConfig) (rv sv : Vocab) (ver : String) :
    (build_model c rv sv ver).model.review_lookup = TableVal.copied rv.vectors ∧
    ((build_model c rv sv ver).model.summary_lookup = TableVal.copied sv.vectors ↔
      (c.model.params.use_summary = true ∧ c.model.params.combined_lookup ≠ some true)) := by
  cases hg : c.use_gpu <;>
  cases hu : c.model.params.use_summary <;>
  rcases hc : c.model.params.combined_lookup with _ | (_ | _) <;>
  simp [build_model, HAN, hg, hu, hc]

/-! ## C4 -/

/-- The dataloader of any phase other than train has no sampler and
shuffling disabled, whatever the weights entry holds. -/
lemma dataloaderFor_not_train (dc : DataConfig) (p : Phase) (hp : p ≠ Phase.train) :
    (dataloaderFor dc p).sampler = none ∧ (dataloaderFor dc p).shuffle = false := by
  have hpf : (if p = Phase.train then true else false) = false := by
    simp [hp]
  unfold dataloaderFor
  rcases dc.weights with _ | w
  · simp [hpf]
  · by_cases ht : w.truthy
    · simp [ht, hp]
    · simp [ht, hpf]

/-- C4: for every phase other than train and every value of the weights
configuration entry, the dataloader load_datasets builds for that phase
has no sampler and traverses the dataset without shuffling. -/
theorem eval_loaders_sequential (dc : DataConfig) (disk : Disk)
    (phases : List Phase) (p : Phase) (dl : DataLoaderCfg)
    (hp : p ≠ Phase.train)
    (hmem : (p, dl) ∈ (load_datasets dc disk phases).loaders) :
    dl.sampler = none ∧ dl.shuffle = false := by
  have hdl : dl = dataloaderFor dc p := by
    unfold load_datasets at hmem
    split at hmem <;>
    · simp only [List.mem_map] at hmem
      obtain ⟨x, _, hx⟩ := hmem
      injection hx with h1 h2
      subst h1
      exact h2.symm
  subst hdl
  exact dataloaderFor_not_train dc p hp

/-- C4 witness: the val dataloader of the sample configuration. -/
theorem eval_loaders_sequential_witness :
    (⟨32, false, none⟩ : DataLoaderCfg).sampler = none ∧
    (⟨32, false, none⟩ : DataLoaderCfg).shuffle = false :=
  eval_loaders_sequential sampleDataConfig sampleDisk [Phase.val] Phase.val
    ⟨32, false, none⟩ (by decide) (by decide)

/-! ## C5 -/

/-- The sample configuration with the invalid mode foo. -/
def invalidModeConfig : FullConfig := { sampleConfig with mode := "foo" }

/-- C5 counterexample: with the invalid mode foo, main still loads the
datasets (for the phases train and val) and builds the model before the
invalid-mode message; the claim that no dataset loading or model
construction is performed for an invalid mode is false. -/
theorem main_invalid_mode_counterexample :
    invalidModeConfig.mode ≠ "train" ∧ invalidModeConfig.mode ≠ "test" ∧
    MainEvent.loadData [Phase.train, Phase.val] ∈
      (mainRun invalidModeConfig sampleDisk sampleFS "1.0").events ∧
    MainEvent.modelBuilt ∈ (mainRun invalidModeConfig sampleDisk sampleFS "1.0").events := by
  decide

/-- C5 amended: for a mode that is neither train nor test, main logs the
descriptive invalid-mode message and runs neither training nor testing,
but only after the datasets were loaded (for the phases train and val)
and the model was built; main then returns normally. -/
theorem main_invalid_mode (c : FullConfig) (disk : Disk)
    (fs : String → Option Checkpoint) (ver : String)
    (h1 : c.mode ≠ "train") (h2 : c.mode ≠ "test") :
    (mainRun c disk fs ver).events =
      [MainEvent.loadData [Phase.train, Phase.val], MainEvent.modelBuilt,
        MainEvent.invalidMode c.mode] := by
  simp [mainRun, h1, h2]

/-- C5 witness: the amended statement at the concrete mode foo. -/
theorem main_invalid_mode_witness :
    (mainRun invalidModeConfig sampleDisk sampleFS "1.0").events =
      [MainEvent.loadData [Phase.train, Phase.val], MainEvent.modelBuilt,
        MainEvent.invalidMode "foo"] :=
  main_invalid_mode invalidModeConfig sampleDisk sampleFS "1.0"
    (by decide) (by decide)

/-! ## C6 -/

/-- C6: when use_gpu is true, the transfer of the model to the
accelerator is the last event of the build_model trace and occurs
nowhere earlier in it, while the copy of the review vectors occurs
strictly before it: the device transfer happens strictly after the
embedding copies, never before. -/
theorem build_model_cuda_last (c : FullConfig) (rv sv : Vocab) (ver : String)
    (h : c.use_gpu = true) :
    (build_model c rv sv ver).trace.getLast? = some BuildEvent.toCuda ∧
    BuildEvent.toCuda ∉ (build_model c rv sv ver).trace.dropLast ∧
    BuildEvent.copyReview ∈ (build_model c rv sv ver).trace.dropLast := by
  cases hu : c.model.params.use_summary <;>
  rcases hc : c.model.params.combined_lookup with _ | (_ | _) <;>
  simp [build_model, HAN, h, hu, hc, List.getLast?, List.dropLast]

/-- The sample configuration with use_gpu true. -/
def gpuConfig : FullConfig := { sampleConfig with use_gpu := true }

/-- C6 witness: at the gpu sample configuration. -/
theorem build_model_cuda_last_witness :
    (build_model gpuConfig sampleVocab sampleVocab2 "1.0").trace.getLast?
      = some BuildEvent.toCuda ∧
    BuildEvent.toCuda ∉ (build_model gpuConfig sampleVocab sampleVocab2 "1.0").trace.dropLast ∧
    BuildEvent.copyReview ∈ (build_model gpuConfig sampleVocab sampleVocab2 "1.0").trace.dropLast :=
  build_model_cuda_last gpuConfig sampleVocab sampleVocab2 "1.0" rfl

/-! ## C7 -/

/-- C7: when the review and summary vocabulary file names coincide,
load_datasets performs a single pickle.load and the summary vocabulary
is the very same object as the review vocabulary; when they differ, two
loads happen and the two vocabulary objects have distinct identities. -/
theorem load_datasets_vocab_alias (dc : DataConfig) (disk : Disk) (phases : List Phase) :
    (dc.review_vocab = dc.summary_vocab →
      (load_datasets dc disk phases).load_count = 1 ∧
      (load_datasets dc disk phases).summary_vocab
        = (load_datasets dc disk phases).review_vocab) ∧
    (dc.review_vocab ≠ dc.summary_vocab →
      (load_datasets dc disk phases).load_count = 2 ∧
      (load_datasets dc disk phases).summary_vocab.oid
        ≠ (load_datasets dc disk phases).review_vocab.oid) := by
  by_cases h : dc.review_vocab = dc.summary_vocab <;>
    simp [load_datasets, pickle_load, h]

/-! ## C8 -/

/-- reload never changes the class of a supplied optimizer, only its
loaded state. -/
lemma reload_optimizer_cls (c : FullConfig) (fs : String → Option Checkpoint)
    (m : HANModel) (o : Optimizer) :
    ((reload c fs m (some o)).optimizer).map Optimizer.cls = some o.cls := by
  cases hr : c.model.reload with
  | none => simp [reload, hr]
  | some r =>
    cases hf : fs (pathJoin c.save_dir r) with
    | none => simp [reload, hr, hf]
    | some ck => simp [reload, hr, hf]

/-- C8: in training mode, when the optim class tag is neither sgd nor
rmsprop, the optimizer main constructs is an Adam instance: the
dispatch silently falls back to the default class and no error is
raised for an unrecognized tag. -/
theorem optimizer_fallback (c : FullConfig) (disk : Disk)
    (fs : String → Option Checkpoint) (ver : String)
    (hm : c.mode = "train") (h1 : c.optim.cls ≠ "sgd") (h2 : c.optim.cls ≠ "rmsprop") :
    ((mainRun c disk fs ver).optimizer).map Optimizer.cls = some OptimClass.adam := by
  have hsel : select_optimizer c.optim.cls = OptimClass.adam := by
    simp [select_optimizer, h1, h2]
  simp [mainRun, hm, reload_optimizer_cls, hsel]

/-- The sample training configuration with an unrecognized optim tag. -/
def fallbackConfig : FullConfig := { sampleConfig with optim := ⟨"adagrad"⟩ }

/-- C8 witness: the tag adagrad falls back to Adam. -/
theorem optimizer_fallback_witness :
    ((mainRun fallbackConfig sampleDisk sampleFS "1.0").optimizer).map Optimizer.cls
      = some OptimClass.adam :=
  optimizer_fallback fallbackConfig sampleDisk sampleFS "1.0" rfl
    (by decide) (by decide)

/-! ## C9 -/

/-- C9: build_model mutates the configuration it was given: when the
combined_lookup key was absent, the returned configuration has, in its
model params section, the review and summary vocabulary sizes, the
top-level use_gpu flag and combined_lookup = false, and it differs from
the configuration that was passed in. -/
theorem build_model_mutates_config (c : FullConfig) (rv sv : Vocab) (ver : String)
    (hc : c.model.params.combined_lookup = none) :
    (build_model c rv sv ver).config.model.params.review_vocab_size = some rv.size ∧
    (build_model c rv sv ver).config.model.params.summary_vocab_size = some sv.size ∧
    (build_model c rv sv ver).config.model.params.use_gpu = some c.use_gpu ∧
    (build_model c rv sv ver).config.model.params.combined_lookup = some false ∧
    (build_model c rv sv ver).config ≠ c := by
  have h4 : (build_model c rv sv ver).config.model.params.combined_lookup = some false := by
    simp [build_model, hc]
  refine ⟨by simp [build_model, hc], by simp [build_model, hc],
    by simp [build_model, hc], h4, ?_⟩
  intro heq
  rw [heq, hc] at h4
  exact Option.noConfusion h4

/-- C9 witness: at the sample configuration, whose combined_lookup key
is absent. -/
theorem build_model_mutates_config_witness :
    (build_model sampleConfig sampleVocab sampleVocab2 "1.0").config.model.params.review_vocab_size
      = some sampleVocab.size ∧
    (build_model sampleConfig sampleVocab sampleVocab2 "1.0").config.model.params.summary_vocab_size
      = some sampleVocab2.size ∧
    (build_model sampleConfig sampleVocab sampleVocab2 "1.0").config.model.params.use_gpu
      = some sampleConfig.use_gpu ∧
    (build_model sampleConfig sampleVocab sampleVocab2 "1.0").config.model.params.combined_lookup
      = some false ∧
    (build_model sampleConfig sampleVocab sampleVocab2 "1.0").config ≠ sampleConfig :=
  build_model_mutates_config sampleConfig sampleVocab sampleVocab2 "1.0" rfl

/-! ## C10 -/

/-- With use_gpu false, the build_model trace has no device transfer. -/
lemma build_model_no_cuda (c : FullConfig) (rv sv : Vocab) (ver : String)
    (h : c.use_gpu = false) :
    BuildEvent.toCuda ∉ (build_model c rv sv ver).trace := by
  cases hu : c.model.params.use_summary <;>
  rcases hc : c.model.params.combined_lookup with _ | (_ | _) <;>
  simp [build_model, HAN, h, hu, hc]

/-- Whatever the mode, the build trace mainRun reports is the trace of
a build_model call on the given configuration. -/
lemma mainRun_buildTrace (c : FullConfig) (disk : Disk)
    (fs : String → Option Checkpoint) (ver : String) :
    ∃ rv sv, (mainRun c disk fs ver).buildTrace = (build_model c rv sv ver).trace := by
  by_cases h2 : c.mode = "test"
  · have h1 : ¬ c.mode = "train" := by rw [h2]; decide
    exact ⟨(load_datasets c.data disk [Phase.test]).review_vocab,
      (load_datasets c.data disk [Phase.test]).summary_vocab,
      by simp [mainRun, h1, h2]⟩
  · exact ⟨(load_datasets c.data disk [Phase.train, Phase.val]).review_vocab,
      (load_datasets c.data disk [Phase.train, Phase.val]).summary_vocab,
      by by_cases h1 : c.mode = "train" <;> simp [mainRun, h1, h2]⟩

/-- C10: the startup line replaces use_gpu by the conjunction of the
configured flag and accelerator availability, so on a machine without
an accelerator a run of main never performs the model-to-device
transfer in build_model, whatever the configured flag was. -/
theorem startup_gpu_guard (c : FullConfig) (disk : Disk)
    (fs : String → Option Checkpoint) (ver : String) (a : Bool)
    (ha : a = false) :
    (startup_use_gpu c a).use_gpu = (c.use_gpu && a) ∧
    BuildEvent.toCuda ∉ (mainRun (startup_use_gpu c a) disk fs ver).buildTrace := by
  refine ⟨rfl, ?_⟩
  obtain ⟨rv, sv, htr⟩ := mainRun_buildTrace (startup_use_gpu c a) disk fs ver
  rw [htr]
  apply build_model_no_cuda
  simp [startup_use_gpu, ha]

/-- C10 witness: use_gpu configured true but no accelerator available. -/
theorem startup_gpu_guard_witness :
    (startup_use_gpu gpuConfig false).use_gpu = (gpuConfig.use_gpu && false) ∧
    BuildEvent.toCuda ∉
      (mainRun (startup_use_gpu gpuConfig false) sampleDisk sampleFS "1.0").buildTrace :=
  startup_gpu_guard gpuConfig sampleDisk sampleFS "1.0" false rfl
